import Mathlib

/-!
Shallow embedding of `src/lib/connection-monitor.js` (virtru-components/
connection-monitor).

The JavaScript module defines a single `ConnectionMonitor` class.  We embed
it as follows:

* JS option objects become the `Options` structure whose fields are
  `Option`-valued (a `none` field models an absent / `undefined` property).
* `_.extend({}, DEFAULT_OPTIONS, options)` becomes `extendOptions`.  Note
  that the source's `DEFAULT_OPTIONS` stores the interval default under the
  key `heartBeatInterval` (capital `B`), while the constructor reads
  `options.heartbeatInterval` (lower-case `b`); the embedding keeps both
  keys, faithfully to the source.
* The constructor becomes `ConnectionMonitor : Options → Option Bool →
  Except ConfigurationError Monitor`; the second argument is the platform
  value `navigator.onLine` (`none` models the indicator being unavailable,
  i.e. the property reading as `undefined`).  A thrown error becomes
  `Except.error`.
* The source assigns `this.hearbeatStatusFunction` (sic, missing `t`) and
  never assigns `this.heartbeatStatusFunction`; the `Monitor` structure has
  both fields so that reads of either property can be embedded faithfully.
* Event emission (`Emitter` mixin) is embedded by returning the list of
  events emitted during a call.
* Exceptions that may escape a JS function are embedded with `Except`.
* `window`/scheduler interaction (`addEventListener`, `setInterval`,
  `clearTimeout`) is embedded by an explicit `Sys` state holding the
  subscription flags, the scheduler's active timers, the probes issued so
  far and the events emitted so far.
-/

namespace ConnMon

/-- Events the monitor can emit (`this.emit('online') / this.emit('offline')`). -/
inductive Event where
  | online
  | offline
  deriving DecidableEq, Repr

/-- A probe response as seen by the readiness callback: the two XHR fields
the source reads, `xhr.readyState` and `xhr.status`. -/
structure Xhr where
  readyState : Nat
  status : Nat
  deriving DecidableEq, Repr

/-- A JS value supplied as the `heartbeatUrl` option: either a string or
some non-string value of which only the truthiness matters to the code. -/
inductive UrlVal where
  | str (s : String)
  | nonString (truthy : Bool)
  deriving DecidableEq, Repr

/-- JS truthiness of the `heartbeatUrl` option (`!options.heartbeatUrl`):
`undefined` is falsy, a string is truthy iff non-empty, other values carry
their truthiness. -/
def urlTruthy : Option UrlVal → Bool
  | some (.str s) => s ≠ ""
  | some (.nonString t) => t
  | none => false

/-- The underscore helper `_.isString(options.heartbeatUrl)`. -/
def urlIsString : Option UrlVal → Bool
  | some (.str _) => true
  | _ => false

/-- JS truthiness of a possibly-undefined boolean field such as
`this.isOnline` (which the constructor sets to `navigator.onLine`, a value
that is `undefined` where the indicator is unavailable). -/
def truthy : Option Bool → Bool
  | some b => b
  | none => false

/-- A heartbeat classifier: receives the XHR and either returns a boolean
or throws (`Except.error`). -/
def StatusFn : Type := Xhr → Except Unit Bool

/-- The source's `DEFAULT_OPTIONS` object.  Its interval key is spelled
`heartBeatInterval` (capital `B`) and its value is `6000`, exactly as in
the source. -/
structure Defaults where
  activeMonitoring : Bool
  heartBeatInterval : Nat

/-- Definition of `DEFAULT_OPTIONS` from the source. -/
def DEFAULT_OPTIONS : Defaults :=
  { activeMonitoring := false
    heartBeatInterval := 6000 }

/-- The options object a caller passes to the constructor.  Every field is
optional; `none` models the property being absent. -/
structure Options where
  activeMonitoring : Option Bool := none
  heartbeatInterval : Option Nat := none
  heartBeatInterval : Option Nat := none
  heartbeatUrl : Option UrlVal := none
  heartbeatStatusFunction : Option StatusFn := none

/-- The result of `_.extend({}, DEFAULT_OPTIONS, options)`: default values
filled in under the keys where `DEFAULT_OPTIONS` defines them.  Note the
two distinct interval keys: the default lives under `heartBeatInterval`
while the constructor reads `heartbeatInterval`. -/
structure MergedOptions where
  activeMonitoring : Bool
  heartBeatInterval : Nat
  heartbeatInterval : Option Nat
  heartbeatUrl : Option UrlVal
  heartbeatStatusFunction : Option StatusFn

/-- Embedding of `_.extend({}, DEFAULT_OPTIONS, options)`. -/
def extendOptions (o : Options) : MergedOptions :=
  { activeMonitoring := o.activeMonitoring.getD DEFAULT_OPTIONS.activeMonitoring
    heartBeatInterval := o.heartBeatInterval.getD DEFAULT_OPTIONS.heartBeatInterval
    heartbeatInterval := o.heartbeatInterval
    heartbeatUrl := o.heartbeatUrl
    heartbeatStatusFunction := o.heartbeatStatusFunction }

/-- The error thrown by the constructor (`throw new Error('The option
heartbeatUrl must be set if active monitoring is turned on')`). -/
inductive ConfigurationError where
  | heartbeatUrlMustBeSet
  deriving DecidableEq, Repr

/-- The monitor instance: the fields the constructor assigns on `this`.
`hearbeatStatusFunction` reproduces the source's misspelled property name
(`this.hearbeatStatusFunction = options.heartbeatStatusFunction`); the
correctly spelled `heartbeatStatusFunction` property is never assigned by
the constructor, so it is `none` (reads give `undefined`) on every
constructed monitor.  `intervalId` is the repeating-timer handle. -/
structure Monitor where
  activeMonitoring : Bool
  heartbeatInterval : Option Nat
  heartbeatUrl : Option UrlVal
  hearbeatStatusFunction : Option StatusFn
  heartbeatStatusFunction : Option StatusFn
  isOnline : Option Bool
  intervalId : Option Nat

/-- Embedding of the `ConnectionMonitor` constructor.  `navOnLine` is the
platform value `navigator.onLine` (`none` when the indicator is
unavailable, in which case the property read yields `undefined`). -/
def ConnectionMonitor (o : Options) (navOnLine : Option Bool) :
    Except ConfigurationError Monitor :=
  if (extendOptions o).activeMonitoring
      && (!urlTruthy (extendOptions o).heartbeatUrl
          || !urlIsString (extendOptions o).heartbeatUrl) then
    .error .heartbeatUrlMustBeSet
  else
    .ok
      { activeMonitoring := (extendOptions o).activeMonitoring
        heartbeatInterval := (extendOptions o).heartbeatInterval
        heartbeatUrl := (extendOptions o).heartbeatUrl
        hearbeatStatusFunction := (extendOptions o).heartbeatStatusFunction
        heartbeatStatusFunction := none
        isOnline := navOnLine
        intervalId := none }

/-- Embedding of `toggleAndEmit`: flips `isOnline` (JS truthiness of the
current value decides the branch) and emits the matching event. -/
def toggleAndEmit (m : Monitor) : Monitor × List Event :=
  if truthy m.isOnline then
    ({ m with isOnline := some false }, [Event.offline])
  else
    ({ m with isOnline := some true }, [Event.online])

/-- The source's `defaultStatusFunction`: success iff `xhr.status === 200`. -/
def defaultStatusFunction (xhr : Xhr) : Bool :=
  xhr.status == 200

/-- The classification expression inside the `try` block of the readiness
callback: `self.heartbeatStatusFunction ? self.hearbeatStatusFunction(xhr)
: defaultStatusFunction(xhr)`.  The ternary condition tests the correctly
spelled property; when it is truthy the call goes through the misspelled
property, and calling an `undefined` property throws a `TypeError`
(embedded as `Except.error ()`). -/
def classifyAttempt (m : Monitor) (xhr : Xhr) : Except Unit Bool :=
  if m.heartbeatStatusFunction.isSome then
    match m.hearbeatStatusFunction with
    | some f => f xhr
    | none => .error ()
  else
    .ok (defaultStatusFunction xhr)

/-- Embedding of the `xhr.onreadystatechange` callback installed by
`sendHeartbeat`: returns early unless `readyState` is 4, otherwise
classifies inside a `try` and toggles edge-triggered; any exception from
classification is caught and handled as a probe failure.  The total return
type (no `Except`) reflects that no exception escapes the callback. -/
def heartbeatCallback (m : Monitor) (xhr : Xhr) : Monitor × List Event :=
  if xhr.readyState ≠ 4 then
    (m, [])
  else
    match classifyAttempt m xhr with
    | .ok result =>
        if result then
          if !truthy m.isOnline then toggleAndEmit m else (m, [])
        else
          if truthy m.isOnline then toggleAndEmit m else (m, [])
    | .error _ =>
        if truthy m.isOnline then toggleAndEmit m else (m, [])

/-- The global `window.isOnline` property.  The handlers `onOnline` and
`onOffline` reference the free variable `self`, which in the browser is the
global `window` object, not the monitor instance (no enclosing scope binds
`self` there; the `var self = this` inside `sendHeartbeat` is local to that
method).  No code in the program ever assigns `window.isOnline`, so the
property read yields `undefined`. -/
def windowIsOnline : Option Bool := none

/-- Whether the global `window.toggleAndEmit` property is defined.  No code
in the program ever assigns it, so calling it throws a `TypeError`. -/
def windowHasToggleAndEmit : Bool := false

/-- A JS exception escaping a handler, embedded as an error value. -/
inductive JsError where
  | typeError
  deriving DecidableEq, Repr

/-- Embedding of `onOnline` as written: `if (!self.isOnline)
{ self.toggleAndEmit(); }` where `self` is the global `window`.
`window.isOnline` is `undefined` (falsy), so the guard is taken, and the
call to the undefined `window.toggleAndEmit` throws a `TypeError`.  The
monitor instance (`m`) is never read or written. -/
def onOnline (m : Monitor) : Except JsError (Monitor × List Event) :=
  if !truthy windowIsOnline then
    if windowHasToggleAndEmit then .ok (m, []) else .error .typeError
  else
    .ok (m, [])

/-- Embedding of `onOffline` as written: `if (self.isOnline)
{ self.toggleAndEmit(); }` where `self` is again the global `window`.
`window.isOnline` is `undefined` (falsy), so the guard is not taken and the
handler returns having done nothing at all. -/
def onOffline (m : Monitor) : Except JsError (Monitor × List Event) :=
  if truthy windowIsOnline then
    if windowHasToggleAndEmit then .ok (m, []) else .error .typeError
  else
    .ok (m, [])

/-- One repeating timer registered with the scheduler: its id, the delay
value that was passed to `setInterval` (possibly `undefined`), and the time
remaining before its next firing (full delay at registration). -/
structure Timer where
  id : Nat
  delay : Option Nat
  remaining : Option Nat
  deriving DecidableEq, Repr

/-- The scheduler's state: the next fresh timer id (ids start at 1, so a
stored id is always truthy) and the registered repeating timers. -/
structure Sched where
  nextId : Nat
  timers : List Timer
  deriving DecidableEq, Repr

/-- Embedding of `setInterval(callback, delay)`: registers a fresh repeating
timer with a full countdown and returns its id. -/
def schedSetInterval (s : Sched) (delay : Option Nat) : Sched × Nat :=
  (⟨s.nextId + 1, s.timers ++ [⟨s.nextId, delay, delay⟩]⟩, s.nextId)

/-- Embedding of `clearTimeout(id)`: in the browser timer ids are shared
between `setTimeout` and `setInterval`, so `clearTimeout` also cancels an
interval; the timer with that id is deregistered. -/
def schedClearTimeout (s : Sched) (id : Nat) : Sched :=
  ⟨s.nextId, s.timers.filter (fun t => t.id ≠ id)⟩

/-- The full system state: the monitor instance, the scheduler, whether the
monitor's handlers are registered on the window's `online` / `offline`
events, the GET probes issued so far (`xhr.open("GET", this.heartbeatUrl);
xhr.send()` appends the target url), and the events emitted so far. -/
structure Sys where
  m : Monitor
  sched : Sched
  subOnline : Bool
  subOffline : Bool
  probesSent : List (Option UrlVal)
  emitted : List Event

/-- Embedding of the synchronous part of `sendHeartbeat`: a fresh XHR is
opened on `this.heartbeatUrl` and sent (the readiness callback is a
separate environment event, `heartbeatCallback`). -/
def sendHeartbeatS (sys : Sys) : Sys :=
  { sys with probesSent := sys.probesSent ++ [sys.m.heartbeatUrl] }

/-- Embedding of `initializeXhrPolling`: one immediate probe, then
`this.intervalId = setInterval(this.sendHeartbeat, this.heartbeatInterval)`. -/
def initializeXhrPollingS (sys : Sys) : Sys :=
  let sys1 := sendHeartbeatS sys
  let p := schedSetInterval sys1.sched sys1.m.heartbeatInterval
  { sys1 with sched := p.1, m := { sys1.m with intervalId := some p.2 } }

/-- Embedding of `start`: register the passive listeners, then begin
polling when `activeMonitoring` is on. -/
def startS (sys : Sys) : Sys :=
  let sys1 := { sys with subOnline := true, subOffline := true }
  if sys1.m.activeMonitoring then initializeXhrPollingS sys1 else sys1

/-- The `if (this.intervalId) { clearTimeout(this.intervalId);
this.intervalId = null; }` fragment shared by `stop` and `tryAgain`
(a stored id is at least 1, hence truthy). -/
def clearIntervalIfSet (sys : Sys) : Sys :=
  match sys.m.intervalId with
  | some id =>
      { sys with sched := schedClearTimeout sys.sched id
                 m := { sys.m with intervalId := none } }
  | none => sys

/-- Embedding of `stop`: deregister the passive listeners
(`removeEventListener` is a no-op when the listener is not registered),
then cancel the repeating timer when one is stored. -/
def stopS (sys : Sys) : Sys :=
  clearIntervalIfSet { sys with subOnline := false, subOffline := false }

/-- Embedding of `tryAgain`: cancel the stored timer when present, then
`initializeXhrPolling` again. -/
def tryAgainS (sys : Sys) : Sys :=
  initializeXhrPollingS (clearIntervalIfSet sys)

/-- Environment events: the scheduler firing a registered timer, and the
window dispatching a passive `online` / `offline` connectivity signal. -/
inductive EnvEvent where
  | timerFires (id : Nat)
  | windowOnline
  | windowOffline

/-- Effect of one environment event on the system.  A timer only fires
while registered with the scheduler, and a passive signal only reaches a
handler while it is subscribed; an exception thrown by a handler is
swallowed by the event dispatcher (it reaches no other code), leaving the
system unchanged. -/
def envStep (sys : Sys) : EnvEvent → Sys
  | .timerFires id =>
      if sys.sched.timers.any (fun t => t.id == id) then sendHeartbeatS sys
      else sys
  | .windowOnline =>
      if sys.subOnline then
        match onOnline sys.m with
        | .ok me => { sys with m := me.1, emitted := sys.emitted ++ me.2 }
        | .error _ => sys
      else sys
  | .windowOffline =>
      if sys.subOffline then
        match onOffline sys.m with
        | .ok me => { sys with m := me.1, emitted := sys.emitted ++ me.2 }
        | .error _ => sys
      else sys

/-- Running a sequence of environment events. -/
def envRun (sys : Sys) (es : List EnvEvent) : Sys :=
  es.foldl envStep sys

/-- A probe response arriving: the readiness callback of `sendHeartbeat`
runs against the monitor; only the monitor and the emitted-event log can
change. -/
def responseStep (sys : Sys) (xhr : Xhr) : Sys :=
  let r := heartbeatCallback sys.m xhr
  { sys with m := r.1, emitted := sys.emitted ++ r.2 }

/-! ### Concrete instances used to exercise the definitions -/

/-- A concrete monitor as produced by the constructor for
`{activeMonitoring: true, heartbeatInterval: 6000, heartbeatUrl:
"http://x/health"}` with `navigator.onLine === true`. -/
def mEx : Monitor :=
  { activeMonitoring := true
    heartbeatInterval := some 6000
    heartbeatUrl := some (.str "http://x/health")
    hearbeatStatusFunction := none
    heartbeatStatusFunction := none
    isOnline := some true
    intervalId := none }

/-! ### Claims -/

/-- C4: the constructor throws (a `ConfigurationError`, embedded as the
`Except.error` outcome, so no monitor object is produced) if and only if
`activeMonitoring` is true after defaulting and `heartbeatUrl` is absent,
empty, or not a string; in particular with `activeMonitoring` false it
never throws. -/
theorem C4_construction_error_iff (o : Options) (nav : Option Bool) :
    (∃ e, ConnectionMonitor o nav = .error e) ↔
      (o.activeMonitoring.getD false = true ∧
        ∀ s : String, o.heartbeatUrl = some (UrlVal.str s) → s = "") := by
  have hcond : (∃ e, ConnectionMonitor o nav = .error e) ↔
      ((extendOptions o).activeMonitoring
        && (!urlTruthy (extendOptions o).heartbeatUrl
            || !urlIsString (extendOptions o).heartbeatUrl)) = true := by
    unfold ConnectionMonitor
    split
    · next h => exact iff_of_true ⟨_, rfl⟩ h
    · next h => simp [h]
  rw [hcond]
  rcases o with ⟨am, hi, hBi, hu, hf⟩
  rcases hu with _ | (s | t) <;>
    simp [extendOptions, urlTruthy, urlIsString, DEFAULT_OPTIONS]

/-- Witness for C4 at a concrete input: active monitoring requested with no
`heartbeatUrl` fails construction. -/
theorem C4_construction_error_witness :
    ∃ e, ConnectionMonitor { activeMonitoring := some true } none = .error e :=
  (C4_construction_error_iff { activeMonitoring := some true } none).mpr
    ⟨rfl, fun s h => nomatch h⟩

/-- C6 counterexample: constructed with the platform indicator unavailable
(`navigator.onLine` reads as `undefined`), the monitor's `isOnline` is
`undefined` (falsy) — not the claimed default `true`. -/
theorem C6_counterexample :
    (ConnectionMonitor {} none).map (fun m => m.isOnline) = .ok none ∧
    (none : Option Bool) ≠ some true ∧ truthy none = false := by
  exact ⟨rfl, by decide, rfl⟩

/-- C6 amended: the constructor assigns `navigator.onLine` to `isOnline`
verbatim — it equals the platform indicator when available, and is
`undefined` (falsy, not `true`) when the indicator is unavailable. -/
theorem C6_isOnline_assigned_verbatim (o : Options) (nav : Option Bool)
    (m : Monitor) (h : ConnectionMonitor o nav = .ok m) : m.isOnline = nav := by
  unfold ConnectionMonitor at h
  split at h
  · exact absurd h (by simp)
  · cases h
    rfl

/-- Witness for the amended C6 at a concrete input. -/
theorem C6_isOnline_assigned_verbatim_witness :
    ∃ m, ConnectionMonitor {} (some false) = .ok m ∧ m.isOnline = some false :=
  ⟨_, rfl, C6_isOnline_assigned_verbatim {} (some false) _ rfl⟩

/-- C10: a readiness callback with `readyState ≠ 4` returns before
classifying: the monitor is returned entirely unchanged and no event is
emitted. -/
theorem C10_incomplete_readyState_noop (m : Monitor) (xhr : Xhr)
    (h : xhr.readyState ≠ 4) : heartbeatCallback m xhr = (m, []) := by
  unfold heartbeatCallback
  rw [if_pos h]

/-- Witness for C10 at a concrete input (`readyState = 3`). -/
theorem C10_incomplete_readyState_noop_witness :
    heartbeatCallback mEx ⟨3, 200⟩ = (mEx, []) :=
  C10_incomplete_readyState_noop mEx ⟨3, 200⟩ (by decide)

/-- A custom classifier that accepts every response. -/
def alwaysOkTrue : StatusFn := fun _ => .ok true

/-- Constructor options supplying a custom classifier that accepts every
response. -/
def optsC1 : Options :=
  { activeMonitoring := some true
    heartbeatUrl := some (.str "http://x/health")
    heartbeatStatusFunction := some alwaysOkTrue }

/-- C1: the claim fails on the code.  The constructor stores the supplied
classifier under the misspelled property `hearbeatStatusFunction`, while
the readiness callback's ternary tests the correctly spelled
`heartbeatStatusFunction`, which the constructor never assigns; so the
custom classifier is never consulted.  Concretely: with a supplied
classifier that accepts every response, a completed probe with status 500
is classified by `defaultStatusFunction` as a failure and the monitor
toggles offline, although the supplied classifier returns `true`. -/
theorem C1_custom_classifier_never_used :
    alwaysOkTrue ⟨4, 500⟩ = .ok true ∧
    (ConnectionMonitor optsC1 (some true)).map
        (fun m => m.heartbeatStatusFunction.isSome) = .ok false ∧
    (ConnectionMonitor optsC1 (some true)).map
        (fun m => m.hearbeatStatusFunction.isSome) = .ok true ∧
    (ConnectionMonitor optsC1 (some true)).map
        (fun m => ((heartbeatCallback m ⟨4, 500⟩).1.isOnline,
                   (heartbeatCallback m ⟨4, 500⟩).2))
      = .ok (some false, [Event.offline]) :=
  ⟨rfl, rfl, rfl, rfl⟩

/-- A running system around `mEx` with no active timer, both passive
listeners subscribed, and the monitor believing it is online. -/
def sysC2 : Sys :=
  { m := mEx
    sched := ⟨1, []⟩
    subOnline := true
    subOffline := true
    probesSent := []
    emitted := [] }

/-- C2: the claim fails on the code.  `onOnline` / `onOffline` reference
the free variable `self`, which is the global `window`, not the monitor:
`window.isOnline` is `undefined`, so an "unreachable" signal delivered
while the monitor believes it is online takes no action at all (no toggle,
no `offline` event), and a "reachable" signal throws a `TypeError` against
the undefined `window.toggleAndEmit` (swallowed by the event dispatcher)
without touching the monitor. -/
theorem C2_passive_handlers_never_touch_monitor :
    sysC2.m.isOnline = some true ∧
    sysC2.subOffline = true ∧
    envStep sysC2 .windowOffline = sysC2 ∧
    envStep sysC2 .windowOnline = sysC2 ∧
    onOffline mEx = .ok (mEx, []) ∧
    onOnline mEx = .error JsError.typeError :=
  ⟨rfl, rfl, rfl, rfl, rfl, rfl⟩

/-- Constructor options enabling active monitoring without an explicit
`heartbeatInterval`. -/
def optsC3 : Options :=
  { activeMonitoring := some true
    heartbeatUrl := some (.str "http://x/health") }

/-- C3: the claim fails on the code.  `DEFAULT_OPTIONS` stores its interval
default under the key `heartBeatInterval` (capital `B`) while the
constructor reads `options.heartbeatInterval`, so a monitor constructed
without an explicit interval gets `this.heartbeatInterval = undefined`,
and `undefined` — not 60000 — is the delay handed to `setInterval`;
moreover even the unreachable default constant is 6000, not 60000. -/
theorem C3_default_interval_not_60000 :
    (ConnectionMonitor optsC3 (some true)).map
        (fun m => m.heartbeatInterval) = .ok none ∧
    (ConnectionMonitor optsC3 (some true)).map
        (fun m => (initializeXhrPollingS
            { m := m
              sched := ⟨1, []⟩
              subOnline := true
              subOffline := true
              probesSent := []
              emitted := [] }).sched.timers)
      = .ok [⟨1, none, none⟩] ∧
    DEFAULT_OPTIONS.heartBeatInterval = 6000 ∧
    DEFAULT_OPTIONS.heartBeatInterval ≠ 60000 :=
  ⟨rfl, rfl, rfl, by decide⟩

/-- C5: when the classification expression of a completed probe throws, the
`catch` block treats the probe as a failure: the exception does not escape
the callback (the embedding's return type is total), the scheduler state
and the subscriptions are untouched (so the repeating schedule is not
terminated), and the monitor toggles offline emitting `offline` exactly
when it believed it was online, otherwise nothing changes. -/
theorem C5_classifier_exception_treated_as_failure (sys : Sys) (xhr : Xhr)
    (h4 : xhr.readyState = 4)
    (herr : classifyAttempt sys.m xhr = .error ()) :
    (responseStep sys xhr).sched = sys.sched ∧
    (responseStep sys xhr).subOnline = sys.subOnline ∧
    (responseStep sys xhr).subOffline = sys.subOffline ∧
    (truthy sys.m.isOnline = true →
      (responseStep sys xhr).m.isOnline = some false ∧
      (responseStep sys xhr).emitted = sys.emitted ++ [Event.offline]) ∧
    (truthy sys.m.isOnline = false →
      (responseStep sys xhr).m = sys.m ∧
      (responseStep sys xhr).emitted = sys.emitted) := by
  have hcb : heartbeatCallback sys.m xhr =
      if truthy sys.m.isOnline then toggleAndEmit sys.m else (sys.m, []) := by
    unfold heartbeatCallback
    rw [if_neg (by simp [h4]), herr]
  unfold responseStep
  rw [hcb]
  by_cases hon : truthy sys.m.isOnline
  · simp [hon, toggleAndEmit]
  · simp [hon]

/-- A classifier that throws on every response. -/
def throwingFn : StatusFn := fun _ => .error ()

/-- A monitor whose (correctly spelled) `heartbeatStatusFunction` property
has been assigned a throwing classifier, as a caller can do on the mutable
JS instance; the misspelled property holds the same function. -/
def mThrow : Monitor :=
  { mEx with
    hearbeatStatusFunction := some throwingFn
    heartbeatStatusFunction := some throwingFn }

/-- A running system around `mThrow` with one registered repeating timer. -/
def sysC5 : Sys :=
  { m := mThrow
    sched := ⟨2, [⟨1, some 6000, some 6000⟩]⟩
    subOnline := true
    subOffline := true
    probesSent := []
    emitted := [] }

/-- Witness for C5 at a concrete input: a throwing custom classifier on a
completed probe leaves the schedule intact and toggles the online monitor
offline with a single `offline` event. -/
theorem C5_classifier_exception_witness :
    (responseStep sysC5 ⟨4, 200⟩).sched = sysC5.sched ∧
    (responseStep sysC5 ⟨4, 200⟩).m.isOnline = some false ∧
    (responseStep sysC5 ⟨4, 200⟩).emitted = [Event.offline] := by
  have h := C5_classifier_exception_treated_as_failure sysC5 ⟨4, 200⟩ rfl rfl
  exact ⟨h.1, (h.2.2.2.1 rfl).1, (h.2.2.2.1 rfl).2⟩

/-- C7: `tryAgain` cancels the pending scheduled probe (no timer with the
old stored id survives), stores the handle of a freshly registered
repeating timer, issues exactly one immediate probe, registers the new
timer with a full `heartbeatInterval` countdown (and it is the only timer
with the fresh id), and leaves both passive-event subscriptions unchanged.
The two hypotheses say the scheduler has never handed out an id at or
above `nextId` — true of every reachable scheduler state. -/
theorem C7_tryAgain_restarts_probe_cycle (sys : Sys)
    (hfresh : ∀ t ∈ sys.sched.timers, t.id < sys.sched.nextId)
    (hhandle : sys.m.intervalId = none ∨
      ∃ i, sys.m.intervalId = some i ∧ i < sys.sched.nextId) :
    (tryAgainS sys).probesSent = sys.probesSent ++ [sys.m.heartbeatUrl] ∧
    (∀ i, sys.m.intervalId = some i →
      ∀ t ∈ (tryAgainS sys).sched.timers, t.id ≠ i) ∧
    (tryAgainS sys).m.intervalId = some sys.sched.nextId ∧
    (⟨sys.sched.nextId, sys.m.heartbeatInterval, sys.m.heartbeatInterval⟩ : Timer)
        ∈ (tryAgainS sys).sched.timers ∧
    (∀ t ∈ (tryAgainS sys).sched.timers, t.id = sys.sched.nextId →
      t = ⟨sys.sched.nextId, sys.m.heartbeatInterval, sys.m.heartbeatInterval⟩) ∧
    (tryAgainS sys).subOnline = sys.subOnline ∧
    (tryAgainS sys).subOffline = sys.subOffline := by
  rcases hhandle with h0 | ⟨i0, hi0, hlt0⟩
  · have ht : tryAgainS sys =
        { sys with
          m := { sys.m with intervalId := some sys.sched.nextId }
          sched := ⟨sys.sched.nextId + 1, sys.sched.timers ++
            [⟨sys.sched.nextId, sys.m.heartbeatInterval, sys.m.heartbeatInterval⟩]⟩
          probesSent := sys.probesSent ++ [sys.m.heartbeatUrl] } := by
      simp [tryAgainS, clearIntervalIfSet, h0, initializeXhrPollingS,
        sendHeartbeatS, schedSetInterval]
    rw [ht]
    refine ⟨rfl, ?_, rfl, by simp, ?_, rfl, rfl⟩
    · intro i hi
      rw [h0] at hi
      cases hi
    · intro t htm hid
      simp only [List.mem_append, List.mem_singleton] at htm
      rcases htm with h | h
      · exact absurd (hid ▸ hfresh t h) (lt_irrefl _)
      · exact h
  · have ht : tryAgainS sys =
        { sys with
          m := { sys.m with intervalId := some sys.sched.nextId }
          sched := ⟨sys.sched.nextId + 1,
            (sys.sched.timers.filter (fun t => t.id ≠ i0)) ++
            [⟨sys.sched.nextId, sys.m.heartbeatInterval, sys.m.heartbeatInterval⟩]⟩
          probesSent := sys.probesSent ++ [sys.m.heartbeatUrl] } := by
      simp [tryAgainS, clearIntervalIfSet, hi0, initializeXhrPollingS,
        sendHeartbeatS, schedSetInterval, schedClearTimeout]
    rw [ht]
    refine ⟨rfl, ?_, rfl, by simp, ?_, rfl, rfl⟩
    · intro i hi t htm
      rw [hi0] at hi
      cases hi
      simp only [List.mem_append, List.mem_filter, List.mem_singleton,
        decide_eq_true_eq] at htm
      rcases htm with ⟨_, h⟩ | h
      · exact h
      · rw [h]
        exact Nat.ne_of_gt hlt0
    · intro t htm hid
      simp only [List.mem_append, List.mem_filter, List.mem_singleton,
        decide_eq_true_eq] at htm
      rcases htm with ⟨h, _⟩ | h
      · exact absurd (hid ▸ hfresh t h) (lt_irrefl _)
      · exact h

/-- A running system around `mEx` with a stored timer handle and its
registered repeating timer. -/
def sysC7 : Sys :=
  { m := { mEx with intervalId := some 1 }
    sched := ⟨2, [⟨1, some 6000, some 6000⟩]⟩
    subOnline := true
    subOffline := false
    probesSent := []
    emitted := [] }

/-- Witness for C7 at a concrete input: the old timer (id 1) is gone, the
new handle is 2, one probe went out, the fresh timer has a full countdown,
and the subscription flags are untouched. -/
theorem C7_tryAgain_witness :
    (tryAgainS sysC7).probesSent = [some (UrlVal.str "http://x/health")] ∧
    (tryAgainS sysC7).m.intervalId = some 2 ∧
    (∀ t ∈ (tryAgainS sysC7).sched.timers, t.id ≠ 1) ∧
    (⟨2, some 6000, some 6000⟩ : Timer) ∈ (tryAgainS sysC7).sched.timers ∧
    (tryAgainS sysC7).subOnline = true ∧
    (tryAgainS sysC7).subOffline = false := by
  have h := C7_tryAgain_restarts_probe_cycle sysC7
    (by decide) (Or.inr ⟨1, rfl, by decide⟩)
  exact ⟨h.1, h.2.2.1, h.2.1 1 rfl, h.2.2.2.1, h.2.2.2.2.2.1, h.2.2.2.2.2.2⟩

/-- C8: `toggleAndEmit` always pairs a flag flip with exactly one matching
emission, and it is the single mutation point: the readiness callback
either leaves `isOnline` unchanged emitting nothing or is literally a
`toggleAndEmit` call, and `start`, `stop`, `tryAgain` and every
environment event (timer firing, passive signal — whose handlers, as
written, never reach the instance) leave `isOnline` and the emission log
untouched. -/
theorem C8_isOnline_single_mutation_point :
    (∀ m : Monitor, (toggleAndEmit m).1.isOnline = some (!truthy m.isOnline) ∧
        (toggleAndEmit m).2 =
          [if truthy m.isOnline then Event.offline else Event.online]) ∧
    (∀ (m : Monitor) (xhr : Xhr),
        ((heartbeatCallback m xhr).1.isOnline = m.isOnline ∧
          (heartbeatCallback m xhr).2 = []) ∨
        heartbeatCallback m xhr = toggleAndEmit m) ∧
    (∀ sys : Sys, (startS sys).m.isOnline = sys.m.isOnline ∧
        (startS sys).emitted = sys.emitted) ∧
    (∀ sys : Sys, (stopS sys).m.isOnline = sys.m.isOnline ∧
        (stopS sys).emitted = sys.emitted) ∧
    (∀ sys : Sys, (tryAgainS sys).m.isOnline = sys.m.isOnline ∧
        (tryAgainS sys).emitted = sys.emitted) ∧
    (∀ (sys : Sys) (e : EnvEvent), (envStep sys e).m.isOnline = sys.m.isOnline ∧
        (envStep sys e).emitted = sys.emitted) := by
  refine ⟨?_, ?_, ?_, ?_, ?_, ?_⟩
  · intro m
    unfold toggleAndEmit
    by_cases h : truthy m.isOnline <;> simp [h]
  · intro m xhr
    unfold heartbeatCallback
    split
    · exact Or.inl ⟨rfl, rfl⟩
    · split
      · split
        · split
          · exact Or.inr rfl
          · exact Or.inl ⟨rfl, rfl⟩
        · split
          · exact Or.inr rfl
          · exact Or.inl ⟨rfl, rfl⟩
      · split
        · exact Or.inr rfl
        · exact Or.inl ⟨rfl, rfl⟩
  · intro sys
    by_cases h : sys.m.activeMonitoring <;>
      simp [startS, initializeXhrPollingS, sendHeartbeatS, schedSetInterval, h]
  · intro sys
    rcases h : sys.m.intervalId with _ | id <;>
      simp [stopS, clearIntervalIfSet, h]
  · intro sys
    rcases h : sys.m.intervalId with _ | id <;>
      simp [tryAgainS, clearIntervalIfSet, initializeXhrPollingS,
        sendHeartbeatS, schedSetInterval, h]
  · intro sys e
    cases e <;>
      simp [envStep, onOnline, onOffline, windowIsOnline,
        windowHasToggleAndEmit, truthy, sendHeartbeatS] <;>
      split <;> simp

/-- An environment event has no effect on a system with no subscriptions
and no registered timer. -/
theorem envStep_inactive (sys : Sys) (h1 : sys.subOnline = false)
    (h2 : sys.subOffline = false) (h3 : sys.sched.timers = [])
    (e : EnvEvent) : envStep sys e = sys := by
  cases e <;> simp [envStep, h1, h2, h3]

/-- C9: after `stop`, under the spec's timer-handle invariant (every
registered timer is the one whose id `intervalId` stores), the system is
quiescent: any sequence of environment events — scheduled timers
attempting to fire, passive reachable/unreachable signals — changes
nothing, so no probe goes out and no `online`/`offline` event is emitted
until `start` is called again; and on a system with nothing active,
`stop` is a no-op. -/
theorem C9_stop_quiesces (sys : Sys)
    (hinv : ∀ t ∈ sys.sched.timers, some t.id = sys.m.intervalId) :
    (∀ es, envRun (stopS sys) es = stopS sys) ∧
    (sys.subOnline = false → sys.subOffline = false →
      sys.m.intervalId = none → stopS sys = sys) := by
  constructor
  · have h1 : (stopS sys).subOnline = false := by
      unfold stopS clearIntervalIfSet
      split <;> rfl
    have h2 : (stopS sys).subOffline = false := by
      unfold stopS clearIntervalIfSet
      split <;> rfl
    have h3 : (stopS sys).sched.timers = [] := by
      unfold stopS clearIntervalIfSet
      split
      · next id heq =>
        have heq1 : sys.m.intervalId = some id := heq
        rw [List.eq_nil_iff_forall_not_mem]
        intro t ht
        rcases List.mem_filter.mp ht with ⟨hmem, hp⟩
        have hx := hinv t hmem
        rw [heq1] at hx
        exact absurd (Option.some.inj hx) (of_decide_eq_true hp)
      · next heq =>
        have heq1 : sys.m.intervalId = none := heq
        rw [List.eq_nil_iff_forall_not_mem]
        intro t ht
        have hx := hinv t ht
        rw [heq1] at hx
        exact Option.noConfusion hx
    intro es
    induction es with
    | nil => rfl
    | cons e es ih =>
        unfold envRun at ih ⊢
        rw [List.foldl_cons, envStep_inactive _ h1 h2 h3 e]
        exact ih
  · intro ha hb hc
    rcases sys with ⟨m, sched, so, sf, ps, em⟩
    simp only at ha hb hc
    subst ha
    subst hb
    simp [stopS, clearIntervalIfSet, hc]

/-- A started system around `mEx`: both listeners subscribed, one
registered repeating timer whose id is the stored handle. -/
def sysC9 : Sys :=
  { m := { mEx with intervalId := some 1 }
    sched := ⟨2, [⟨1, none, none⟩]⟩
    subOnline := true
    subOffline := true
    probesSent := []
    emitted := [] }

/-- Witness for C9 at a concrete input: after `stop`, a firing attempt of
the old timer and both passive signals leave the system untouched. -/
theorem C9_stop_quiesces_witness :
    envRun (stopS sysC9)
      [EnvEvent.timerFires 1, EnvEvent.windowOffline, EnvEvent.windowOnline]
      = stopS sysC9 :=
  (C9_stop_quiesces sysC9 (by decide)).1
    [EnvEvent.timerFires 1, EnvEvent.windowOffline, EnvEvent.windowOnline]

end ConnMon
